import Mathlib

/-!
Shallow embedding of the maelstrom distributed-systems node runtime
(echo server, broadcast server, grow-only-set server) and proofs of the
specification claims about it.

Conventions of the embedding:
* `NodeId` is `String`, `MsgId` is `Nat` (the Rust `u64`; arithmetic that
  can overflow is taken modulo `2 ^ 64`), `NodeMessage` is `Int` (`i64`).
* Rust `HashSet` becomes `Finset`, `HashMap` becomes an association list
  queried with `List.lookup` (hash maps have unique keys, so first-match
  lookup agrees with map semantics; insert and remove below erase every
  binding of the key, so the abstraction is faithful on all lists).
* Handlers are state transformers: they take the node state and the
  incoming message and return the new state together with the list of
  messages written to stdout, in emission order.  Fallible Rust code
  (`Result`) becomes `Except String`.  Lock acquisition cannot fail in a
  sequential embedding, so the only `Except.error` paths are the
  wrong-variant guards each handler carries.
* The asynchronous retry thread spawned by the g-set broadcast handler is
  represented by the `PendingBroadcast` record it owns: the broadcast
  value and the set of not-yet-acknowledged neighbors.
-/

instance {ε α : Type} [DecidableEq ε] [DecidableEq α] : DecidableEq (Except ε α) := fun a b =>
  match a, b with
  | .error x, .error y =>
      if h : x = y then .isTrue (by rw [h]) else .isFalse (fun hh => h (Except.error.inj hh))
  | .ok x, .ok y =>
      if h : x = y then .isTrue (by rw [h]) else .isFalse (fun hh => h (Except.ok.inj hh))
  | .error _, .ok _ => .isFalse (fun hh => Except.noConfusion hh)
  | .ok _, .error _ => .isFalse (fun hh => Except.noConfusion hh)

abbrev NodeId := String
abbrev MsgId := Nat
abbrev NodeMessage := Int

/-- `u64` modulus: the `u64` message-id counters wrap at this bound. -/
def U64MOD : Nat := 2 ^ 64

namespace GSet

/-- The message body enum of `src/ch4/g-set/src/main.rs` (serde tag `type`). -/
inductive MessageBody where
  | init (msg_id : MsgId) (node_id : NodeId) (node_ids : List String)
  | initOk (in_reply_to : MsgId)
  | echo (msg_id : MsgId) (echo : String)
  | echoOk (echo : String) (in_reply_to : MsgId)
  | topology (msg_id : MsgId) (topology : List (NodeId × List NodeId))
  | topologyOk (in_reply_to : MsgId)
  | broadcast (msg_id : MsgId) (message : NodeMessage)
  | broadcastOk (in_reply_to : MsgId)
  | read (msg_id : MsgId)
  | readOk (in_reply_to : MsgId) (messages : List NodeMessage)
  | add (msg_id : MsgId) (element : NodeMessage)
  | addOk (in_reply_to : MsgId)
deriving DecidableEq, Repr

/-- The `{src, dest, body}` envelope. -/
structure Message where
  src : NodeId
  dest : NodeId
  body : MessageBody
deriving DecidableEq, Repr

/-- `MessageBody::is_reply`: the `in_reply_to` of a reply variant. -/
def MessageBody.is_reply : MessageBody → Option MsgId
  | .initOk in_reply_to => some in_reply_to
  | .echoOk _ in_reply_to => some in_reply_to
  | .topologyOk in_reply_to => some in_reply_to
  | .broadcastOk in_reply_to => some in_reply_to
  | .readOk in_reply_to _ => some in_reply_to
  | .addOk in_reply_to => some in_reply_to
  | _ => none

/-- `MessageBody::msg_id`: the `msg_id` of a request variant. -/
def MessageBody.msg_id : MessageBody → Option MsgId
  | .read msg_id => some msg_id
  | .echo msg_id _ => some msg_id
  | .topology msg_id _ => some msg_id
  | .broadcast msg_id _ => some msg_id
  | .init msg_id _ _ => some msg_id
  | .add msg_id _ => some msg_id
  | _ => none

/-- Discriminator used to state the handshake claims. -/
def MessageBody.isInit : MessageBody → Bool
  | .init _ _ _ => true
  | _ => false

/-- The mutable state of `struct Node` that the handlers touch: id,
optional topology map, grow-only message set, `u64` message-id counter.
(The stdio handles and the callback/periodic-task tables are modelled
separately.) -/
structure Node where
  node_id : NodeId
  topology : Option (List (NodeId × List NodeId))
  messages : Finset NodeMessage
  next_message_id : Nat
deriving DecidableEq

/-- `Node::new`. -/
def Node.new (node_id : NodeId) : Node :=
  { node_id := node_id
    topology := none
    messages := ∅
    next_message_id := 0 }

/-- `Node::get_next_msg_id`: `fetch_add(1)` on the `AtomicU64` counter
returns the old value and stores the incremented value, wrapping at
`2 ^ 64`. -/
def get_next_msg_id (next_message_id : Nat) : Nat × Nat :=
  (next_message_id % U64MOD, (next_message_id + 1) % U64MOD)

/-- The counter held by the `AtomicU64` after `k` calls to
`get_next_msg_id`, starting from the `0` stored by `Node::new`. -/
def msg_id_counter : Nat → Nat
  | 0 => 0
  | k + 1 => (get_next_msg_id (msg_id_counter k)).2

/-- The message id returned by call number `k` (counting from 0) to
`get_next_msg_id` on one node. -/
def nth_msg_id (k : Nat) : Nat := (get_next_msg_id (msg_id_counter k)).1

/-- `Node::add_message`: insert into the grow-only `HashSet`. -/
def add_message (node : Node) (message : NodeMessage) : Node :=
  { node with messages := insert message node.messages }

/-- `Node::messages_contain`. -/
def messages_contain (node : Node) (message : NodeMessage) : Bool :=
  decide (message ∈ node.messages)

/-- `Node::read_messages`: the `HashSet` iterated into a `Vec`; iteration
order is unspecified, rendered here as the sorted list of elements. -/
def read_messages (node : Node) : List NodeMessage :=
  node.messages.sort (· ≤ ·)

/-- The record owned by the retry thread `Handler::handle_broadcast`
spawns for a newly learned value: the value and the `HashSet` of
neighbors that have not acknowledged it yet. -/
structure PendingBroadcast where
  message : NodeMessage
  unacked : Finset NodeId
deriving DecidableEq

/-- Result of one g-set handler invocation: next node state, stdout
messages in emission order, and the pending-broadcast record of the
spawned retry thread, if any. -/
abbrev HandlerResult := Node × List Message × Option PendingBroadcast

/-- `Handler::handle_echo`. -/
def handle_echo (node : Node) (message : Message) : Except String HandlerResult :=
  match message.body with
  | .echo msg_id echoText =>
      .ok (node, [⟨node.node_id, message.src, .echoOk echoText msg_id⟩], none)
  | _ => .error "handle_echo called on different message"

/-- `Handler::handle_topology`: overwrite the topology, reply TopologyOk. -/
def handle_topology (node : Node) (message : Message) : Except String HandlerResult :=
  match message.body with
  | .topology msg_id topo =>
      .ok ({ node with topology := some topo },
           [⟨node.node_id, message.src, .topologyOk msg_id⟩], none)
  | _ => .error "handle_topology called on different message"

/-- The gossip decision inside `Handler::handle_broadcast` for a newly
learned value: with no topology yet, return without fan-out; otherwise
take the neighbors under the node's own id (absent id ⇒ empty list),
drop the request's sender, and if any neighbor remains spawn the retry
thread owning the unacked-neighbor set. -/
def broadcast_gossip (node : Node) (src : NodeId) (v : NodeMessage) :
    Option PendingBroadcast :=
  match node.topology with
  | none => none
  | some topo =>
      let neighbors :=
        ((topo.lookup node.node_id).getD []).filter (fun n => n ≠ src)
      if neighbors.isEmpty then none
      else some ⟨v, neighbors.toFinset⟩

/-- `Handler::handle_broadcast` of the g-set server: acknowledge first,
then, for a new value, insert it and spawn the per-value retry thread
over the topology neighbors minus the request's sender
(`broadcast_gossip`). -/
def handle_broadcast (node : Node) (message : Message) : Except String HandlerResult :=
  match message.body with
  | .broadcast msg_id broadcast_message =>
      let ack : Message := ⟨node.node_id, message.src, .broadcastOk msg_id⟩
      if messages_contain node broadcast_message then
        .ok (node, [ack], none)
      else
        .ok (add_message node broadcast_message, [ack],
             broadcast_gossip node message.src broadcast_message)
  | _ => .error "handle_broadcast called on different message"

/-- `Handler::handle_read`. -/
def handle_read (node : Node) (message : Message) : Except String HandlerResult :=
  match message.body with
  | .read msg_id =>
      .ok (node, [⟨node.node_id, message.src, .readOk msg_id (read_messages node)⟩], none)
  | _ => .error "handle_read called on different message"

/-- `Handler::handle_add`: insert the element, reply AddOk. -/
def handle_add (node : Node) (message : Message) : Except String HandlerResult :=
  match message.body with
  | .add msg_id element =>
      .ok (add_message node element,
           [⟨node.node_id, message.src, .addOk msg_id⟩], none)
  | _ => .error "handle_add called on different message type"

/-- The continuation the retry thread registers for each neighbor: on a
BroadcastOk response remove that neighbor from the unacked set; the node
state (in particular the message set) is untouched. -/
def broadcast_ack_callback (dest_clone : NodeId) (node : Node)
    (unacked : Finset NodeId) (response : Message) : Node × Finset NodeId :=
  match response.body with
  | .broadcastOk _ => (node, unacked.erase dest_clone)
  | _ => (node, unacked)

/-- The worker's type-handler routing (the `match message.body` at the end
of the worker loop): dispatch to the five handlers, discarding handler
errors (`let _ = ...`); reply variants and Init have no handler there and
are logged and dropped. -/
def routeMessage (node : Node) (message : Message) : HandlerResult :=
  match message.body with
  | .echo _ _ => ((handle_echo node message).toOption).getD (node, [], none)
  | .topology _ _ => ((handle_topology node message).toOption).getD (node, [], none)
  | .broadcast _ _ => ((handle_broadcast node message).toOption).getD (node, [], none)
  | .read _ => ((handle_read node message).toOption).getD (node, [], none)
  | .add _ _ => ((handle_add node message).toOption).getD (node, [], none)
  | _ => (node, [], none)

/-! ### Callback table and RPC

The callback table is the `HashMap<MsgId, HandlerFn>` behind
`node.callbacks`.  Continuations are opaque closures, modelled by a type
parameter `κ`.  The association-list operations below erase every binding
of a key, so they implement hash-map semantics on every list. -/

/-- `HashMap::get` on the callback table. -/
def tableLookup {κ : Type} (t : List (MsgId × κ)) (k : MsgId) : Option κ :=
  List.lookup k t

/-- `HashMap::insert`: bind `k` to `v`, replacing any previous binding. -/
def tableInsert {κ : Type} (t : List (MsgId × κ)) (k : MsgId) (v : κ) :
    List (MsgId × κ) :=
  (k, v) :: t.filter (fun p => p.1 ≠ k)

/-- `HashMap::remove`: the removed value (if any) and the table without `k`. -/
def tableRemove {κ : Type} (t : List (MsgId × κ)) (k : MsgId) :
    Option κ × List (MsgId × κ) :=
  (List.lookup k t, t.filter (fun p => p.1 ≠ k))

/-- The observable outcome of one worker-loop iteration on one envelope. -/
inductive WorkerAction (κ : Type) where
  | invokedCallback (c : κ)
  | routedToHandler
  | droppedNoHandler
deriving DecidableEq, Repr

/-- The handler-routing outcome for a body that is not treated as a reply:
the five request variants go to their handlers, everything else hits the
final `_` arm and is logged and dropped. -/
def routeAction {κ : Type} (message : Message) : WorkerAction κ :=
  match message.body with
  | .echo _ _ => .routedToHandler
  | .topology _ _ => .routedToHandler
  | .broadcast _ _ => .routedToHandler
  | .read _ => .routedToHandler
  | .add _ _ => .routedToHandler
  | _ => .droppedNoHandler

/-- One iteration of the worker loop of `main` in the g-set server: if the
body carries `in_reply_to`, remove and run the matching callback and treat
the envelope as fully handled; a reply with no registered callback falls
through to handler routing (where every reply variant is dropped);
non-replies are routed by variant. -/
def workerStep {κ : Type} (callbacks : List (MsgId × κ)) (message : Message) :
    List (MsgId × κ) × WorkerAction κ :=
  match message.body.is_reply with
  | some reply_to =>
      match tableRemove callbacks reply_to with
      | (some callback, callbacks') => (callbacks', .invokedCallback callback)
      | (none, _) => (callbacks, routeAction message)
  | none => (callbacks, routeAction message)

/-- An effect of `Node::rpc`, in the order the function performs them. -/
inductive RpcEffect (κ : Type) where
  | register (id : MsgId) (handler : κ)
  | send (msg : Message)
deriving DecidableEq

/-- `Node::rpc`: read the body's `msg_id` (panicking — here erroring — if
absent), register the continuation under it in the callback table, then
send the envelope. -/
def rpc {κ : Type} (node_id : NodeId) (callbacks : List (MsgId × κ))
    (dest : NodeId) (body : MessageBody) (response_handler : κ) :
    Except String (List (MsgId × κ) × List (RpcEffect κ)) :=
  match body.msg_id with
  | none => .error "Body contains no message id"
  | some rpc_id =>
      .ok (tableInsert callbacks rpc_id response_handler,
           [.register rpc_id response_handler,
            .send ⟨node_id, dest, body⟩])

/-! ### The main function: handshake and reader loop -/

/-- The init block at the top of `main`: the first decoded message must be
`Init`; then the node is created and `init_ok` with `in_reply_to` set to
the Init's `msg_id` is sent to the Init's sender; any other first message
makes `main` return an error, terminating the process. -/
def initPhase (message : Message) : Except String (Node × List Message) :=
  match message.body with
  | .init msg_id node_id _node_ids =>
      let node := Node.new node_id
      .ok (node, [⟨node.node_id, message.src, .initOk msg_id⟩])
  | _ => .error "First message received must be init"

/-- Sequential processing of a list of request envelopes through the
worker's handler routing, accumulating stdout output in order. -/
def processAll (node : Node) : List Message → Node × List Message
  | [] => (node, [])
  | m :: rest =>
      let r := routeMessage node m
      let r' := processAll r.1 rest
      (r'.1, r.2.1 ++ r'.2)

/-- The reader loop of `main`: each decoded line (`some msg`) is enqueued;
a line whose decode fails (`none`) is logged and skipped, and the loop
continues with the next line.  Returns the queue contents and the log
lines, each in order. -/
def reader_loop : List (Option Message) → List Message × List String
  | [] => ([], [])
  | none :: rest =>
      let r := reader_loop rest
      (r.1, "Error reading message" :: r.2)
  | some m :: rest =>
      let r := reader_loop rest
      (m :: r.1, r.2)

/-- `main`, over the decode results of the stdin lines: the first line is
decoded with `?`, so a missing or undecodable first line terminates the
process with an error; otherwise the init handshake runs and the
remaining lines go through the reader loop and the workers. -/
def main_run (lines : List (Option Message)) :
    Except String (Node × List Message × List String) :=
  match lines with
  | [] => .error "no input"
  | none :: _ => .error "Error decoding first message"
  | some first :: rest =>
      match initPhase first with
      | .error e => .error e
      | .ok (node, outs) =>
          let q := reader_loop rest
          let r := processAll node q.1
          .ok (r.1, outs ++ r.2, q.2)

end GSet

/-!
## The ch3 broadcast server

`src/ch3/broadcast_server/src/main.rs`: same envelope, a body enum without
Add/AddOk, and a `handle_broadcast` that gossips synchronously (no retry
thread) and acknowledges the sender only after the fan-out.
-/

namespace BroadcastServer

/-- The message body enum of the ch3 broadcast server. -/
inductive MessageBody where
  | init (msg_id : MsgId) (node_id : NodeId) (node_ids : List String)
  | initOk (in_reply_to : MsgId)
  | echo (msg_id : MsgId) (echo : String)
  | echoOk (echo : String) (in_reply_to : MsgId)
  | topology (msg_id : MsgId) (topology : List (NodeId × List NodeId))
  | topologyOk (in_reply_to : MsgId)
  | broadcast (msg_id : MsgId) (message : NodeMessage)
  | broadcastOk (in_reply_to : MsgId)
  | read (msg_id : MsgId)
  | readOk (in_reply_to : MsgId) (messages : List NodeMessage)
deriving DecidableEq, Repr

/-- The `{src, dest, body}` envelope of the ch3 server. -/
structure Message where
  src : NodeId
  dest : NodeId
  body : MessageBody
deriving DecidableEq, Repr

/-- `struct Node` of the ch3 server (stdio handles omitted). -/
structure Node where
  node_id : NodeId
  topology : Option (List (NodeId × List NodeId))
  messages : Finset NodeMessage
  next_message_id : Nat
deriving DecidableEq

/-- `Node::add_message` (ch3). -/
def add_message (node : Node) (message : NodeMessage) : Node :=
  { node with messages := insert message node.messages }

/-- `Node::messages_contain` (ch3). -/
def messages_contain (node : Node) (message : NodeMessage) : Bool :=
  decide (message ∈ node.messages)

/-- The fan-out loop inside ch3 `handle_broadcast`: walk the neighbor list
in order, skip the broadcast's origin, and send each remaining neighbor a
Broadcast with a fresh message id drawn from the wrapping `u64` counter.
Returns the counter after the loop and the sent envelopes in order. -/
def fan_out (node_id : NodeId) (src : NodeId) (v : NodeMessage) :
    Nat → List NodeId → Nat × List Message
  | counter, [] => (counter, [])
  | counter, n :: rest =>
      if n = src then fan_out node_id src v counter rest
      else
        ((fan_out node_id src v ((counter + 1) % U64MOD) rest).1,
         ⟨node_id, n, .broadcast (counter % U64MOD) v⟩ ::
           (fan_out node_id src v ((counter + 1) % U64MOD) rest).2)

/-- ch3 `Node::handle_broadcast`: for a new value, insert it and gossip it
to the topology neighbors minus the sender; only after that (and in every
non-error case last) send BroadcastOk to the sender. -/
def handle_broadcast (node : Node) (message : Message) :
    Except String (Node × List Message) :=
  match message.body with
  | .broadcast msg_id broadcast_message =>
      let r :=
        if messages_contain node broadcast_message then (node, ([] : List Message))
        else
          let node' := add_message node broadcast_message
          match node.topology with
          | none => (node', [])
          | some topo =>
              let neighbors := (topo.lookup node.node_id).getD []
              let f := fan_out node.node_id message.src broadcast_message
                node.next_message_id neighbors
              ({ node' with next_message_id := f.1 }, f.2)
      .ok (r.1, r.2 ++ [⟨node.node_id, message.src, .broadcastOk msg_id⟩])
  | _ => .error "handle_broadcast called on different message"

end BroadcastServer

/-!
## The ch2 echo server

`src/ch2/echo_server/src/main.rs`: a single-threaded loop with a four
variant body enum whose reply variants also carry their own `msg_id`, and
an id counter that increments before returning.
-/

namespace EchoServer

/-- The message body enum of the ch2 echo server. -/
inductive MessageBody where
  | init (msg_id : MsgId) (node_id : NodeId) (node_ids : List String)
  | initOk (msg_id : MsgId) (in_reply_to : MsgId)
  | echo (msg_id : MsgId) (echo : String)
  | echoOk (msg_id : MsgId) (echo : String) (in_reply_to : MsgId)
deriving DecidableEq, Repr

/-- The `{src, dest, body}` envelope of the ch2 server. -/
structure Message where
  src : NodeId
  dest : NodeId
  body : MessageBody
deriving DecidableEq, Repr

/-- Discriminator used to state the handshake claims for the ch2 server. -/
def MessageBody.isInit : MessageBody → Bool
  | .init _ _ _ => true
  | _ => false

/-- `struct Node` of the ch2 server. -/
structure Node where
  node_id : NodeId
  next_message_id : MsgId
deriving DecidableEq, Repr

/-- ch2 `Node::get_next_msg_id`: increment the counter, return the new
value (wrapping `u64` addition). -/
def get_next_msg_id (node : Node) : Node × MsgId :=
  let next := (node.next_message_id + 1) % U64MOD
  ({ node with next_message_id := next }, next)

/-- `parse_init_node` on a decoded first message: the Init fields plus the
sender, or an error for any other variant. -/
def parse_init_node (config : Message) :
    Except String (MsgId × NodeId × NodeId × List NodeId) :=
  match config.body with
  | .init msg_id node_id node_ids =>
      .ok (msg_id, config.src, node_id, node_ids)
  | _ => .error "First message received was not init"

/-- `acknowledge_init_node`: send InitOk with a fresh `msg_id` and
`in_reply_to` set to the Init request's id. -/
def acknowledge_init_node (node : Node) (init_request_id : MsgId)
    (init_ok_tgt : NodeId) : Node × Message :=
  let g := get_next_msg_id node
  (g.1, ⟨g.1.node_id, init_ok_tgt, .initOk g.2 init_request_id⟩)

/-- `initialize_node`: parse the first message as Init, build the node
with counter 0 and acknowledge; any non-Init first message is an error
that `main` propagates, terminating the process. -/
def initialize_node (first : Message) : Except String (Node × Message) :=
  match parse_init_node first with
  | .error e => .error e
  | .ok (init_request_id, init_request_src, node_id, _node_ids) =>
      .ok (acknowledge_init_node ⟨node_id, 0⟩ init_request_id init_request_src)

end EchoServer

/-!
## Specification-side definitions and helper lemmas
-/

/-- Modelled from the spec: the fan-out target list as §4.6 describes
it — the neighbor list stored in Topology under the node's own id with
the request's sender removed; empty when no Topology has been received or
the node's id is absent from it.  Compared below with what the broadcast
handlers actually do. -/
def spec_fanout_targets (topology : Option (List (NodeId × List NodeId)))
    (node_id src : NodeId) : List NodeId :=
  match topology with
  | none => []
  | some topo => ((topo.lookup node_id).getD []).filter (fun n => n ≠ src)

/-- Looking a key up after filtering away all of its bindings finds
nothing. -/
theorem lookup_filter_self {κ : Type} (t : List (MsgId × κ)) (m : MsgId) :
    List.lookup m (t.filter (fun p => p.1 ≠ m)) = none := by
  rw [List.lookup_eq_none_iff]
  intro p hp
  have h := List.of_mem_filter hp
  simp only [decide_eq_true_eq] at h
  simpa using fun hh => h hh.symm

/-- Filtering away the bindings of a different key does not change a
lookup. -/
theorem lookup_filter_ne {κ : Type} (t : List (MsgId × κ)) (m k : MsgId)
    (hk : k ≠ m) :
    List.lookup k (t.filter (fun p => p.1 ≠ m)) = List.lookup k t := by
  induction t with
  | nil => rfl
  | cons p rest ih =>
      rcases p with ⟨a, b⟩
      by_cases hp : a = m
      · have hka : (k == a) = false := beq_eq_false_iff_ne.mpr (by rw [hp]; exact hk)
        have hcond : decide ((a, b).1 ≠ m) = false := by simp [hp]
        rw [List.filter_cons, hcond]
        rw [List.lookup_cons, hka]
        simpa using ih
      · by_cases hka : k = a
        · subst hka
          have hcond : decide ((k, b).1 ≠ m) = true := by simp [hp]
          rw [List.filter_cons, hcond]
          simp
        · have hka' : (k == a) = false := beq_eq_false_iff_ne.mpr hka
          have hcond : decide ((a, b).1 ≠ m) = true := by simp [hp]
          rw [List.filter_cons, hcond]
          simp only [if_true]
          rw [List.lookup_cons, hka', List.lookup_cons, hka']
          simpa using ih

/-- `tableInsert` has hash-map semantics: the inserted key maps to the
new value, every other key is untouched. -/
theorem tableLookup_tableInsert {κ : Type} (t : List (MsgId × κ))
    (m k : MsgId) (v : κ) :
    GSet.tableLookup (GSet.tableInsert t m v) k =
      if k = m then some v else GSet.tableLookup t k := by
  show List.lookup k ((m, v) :: t.filter (fun p => p.1 ≠ m)) = _
  by_cases hk : k = m
  · subst hk
    rw [List.lookup_cons_self, if_pos rfl]
  · rw [List.lookup_cons]
    have hkm : (k == m) = false := beq_eq_false_iff_ne.mpr hk
    rw [hkm, if_neg hk]
    exact lookup_filter_ne t m k hk

/-- Handler routing never invokes a callback. -/
theorem routeAction_ne_invoked {κ : Type} (message : GSet.Message) (c : κ) :
    GSet.routeAction message ≠ .invokedCallback c := by
  rcases message with ⟨src, dest, body⟩
  cases body <;> simp [GSet.routeAction]

/-- Every reply variant falls into the worker's final logged-and-dropped
arm of the handler routing. -/
theorem routeAction_of_reply {κ : Type} (message : GSet.Message) (m : MsgId)
    (h : message.body.is_reply = some m) :
    (GSet.routeAction message : GSet.WorkerAction κ) = .droppedNoHandler := by
  rcases message with ⟨src, dest, body⟩
  cases body <;> simp_all [GSet.routeAction, GSet.MessageBody.is_reply]

/-- The ch3 gossip loop sends exactly to the neighbor list minus the
broadcast's origin, in order, and every envelope it sends is a Broadcast
of the gossiped value from this node. -/
theorem fan_out_dest_spec (node_id src : NodeId) (v : NodeMessage) :
    ∀ (counter : Nat) (neighbors : List NodeId),
      ((BroadcastServer.fan_out node_id src v counter neighbors).2.map
          (fun mm => mm.dest)) = neighbors.filter (fun n => n ≠ src) ∧
      ∀ mm ∈ (BroadcastServer.fan_out node_id src v counter neighbors).2,
        mm.src = node_id ∧ ∃ mid, mm.body = .broadcast mid v := by
  intro counter neighbors
  induction neighbors generalizing counter with
  | nil => exact ⟨rfl, by intro mm h; cases h⟩
  | cons n rest ih =>
      by_cases hn : n = src
      · simpa [BroadcastServer.fan_out, hn, List.filter_cons] using ih counter
      · have ih' := ih ((counter + 1) % U64MOD)
        have hunfold : BroadcastServer.fan_out node_id src v counter (n :: rest) =
            ((BroadcastServer.fan_out node_id src v ((counter + 1) % U64MOD) rest).1,
             ⟨node_id, n, .broadcast (counter % U64MOD) v⟩ ::
               (BroadcastServer.fan_out node_id src v ((counter + 1) % U64MOD) rest).2) := by
          simp [BroadcastServer.fan_out, hn]
        constructor
        · rw [hunfold]
          simp only [List.map_cons, List.filter_cons]
          rw [ih'.1]
          simp [hn]
        · intro mm hmm
          rw [hunfold] at hmm
          rcases List.mem_cons.mp hmm with rfl | hmm2
          · exact ⟨rfl, counter % U64MOD, rfl⟩
          · exact ih'.2 mm hmm2

/-!
## The claims
-/

/-- C1: for every Broadcast request whose value is already a member of
the node's MessageSet, `handle_broadcast` (both the g-set server's and
the ch3 broadcast server's) replies BroadcastOk, emits zero further
outbound Broadcast messages (no gossip output and no retry record), and
leaves the MessageSet — indeed the whole node state — unchanged. -/
theorem c1_duplicate_broadcast_terminates (node : GSet.Node)
    (node3 : BroadcastServer.Node) (src dest : NodeId) (i : MsgId)
    (v : NodeMessage) (h : v ∈ node.messages) (h3 : v ∈ node3.messages) :
    GSet.handle_broadcast node ⟨src, dest, .broadcast i v⟩ =
      .ok (node, [⟨node.node_id, src, .broadcastOk i⟩], none) ∧
    BroadcastServer.handle_broadcast node3 ⟨src, dest, .broadcast i v⟩ =
      .ok (node3, [⟨node3.node_id, src, .broadcastOk i⟩]) := by
  constructor
  · simp [GSet.handle_broadcast, GSet.messages_contain, h]
  · simp [BroadcastServer.handle_broadcast, BroadcastServer.messages_contain, h3]

/-- Witness for C1 at a concrete node that already holds the value 5. -/
theorem c1_duplicate_broadcast_terminates_witness :
    (5 : Int) ∈ (⟨"n1", none, {5}, 0⟩ : GSet.Node).messages ∧
    (5 : Int) ∈ (⟨"n1", some [("n1", ["n2"])], {5}, 0⟩ : BroadcastServer.Node).messages ∧
    (GSet.handle_broadcast ⟨"n1", none, {5}, 0⟩ ⟨"c0", "n1", .broadcast 7 5⟩ =
        .ok (⟨"n1", none, {5}, 0⟩, [⟨"n1", "c0", .broadcastOk 7⟩], none) ∧
      BroadcastServer.handle_broadcast ⟨"n1", some [("n1", ["n2"])], {5}, 0⟩
          ⟨"c0", "n1", .broadcast 7 5⟩ =
        .ok (⟨"n1", some [("n1", ["n2"])], {5}, 0⟩, [⟨"n1", "c0", .broadcastOk 7⟩])) :=
  ⟨by decide, by decide,
    c1_duplicate_broadcast_terminates ⟨"n1", none, {5}, 0⟩
      ⟨"n1", some [("n1", ["n2"])], {5}, 0⟩ "c0" "n1" 7 5 (by decide) (by decide)⟩

/-- C9: Add is idempotent — applying `handle_add` with element `x` twice
yields the same MessageSet (in fact the same node state) as applying it
once, and each application replies AddOk with `in_reply_to` equal to the
request's `msg_id`. -/
theorem c9_add_idempotent (node : GSet.Node) (src dest : NodeId)
    (i j : MsgId) (x : NodeMessage) :
    GSet.handle_add node ⟨src, dest, .add i x⟩ =
      .ok (GSet.add_message node x, [⟨node.node_id, src, .addOk i⟩], none) ∧
    GSet.handle_add (GSet.add_message node x) ⟨src, dest, .add j x⟩ =
      .ok (GSet.add_message node x,
           [⟨node.node_id, src, .addOk j⟩], none) := by
  constructor
  · rfl
  · simp [GSet.handle_add, GSet.add_message, Finset.insert_idem]

/-- C3 (amended): in the g-set server, `handle_broadcast` on any
Broadcast request emits exactly one synchronous envelope — the
BroadcastOk with `in_reply_to` equal to the request's `msg_id`, addressed
to the request's sender — before any gossip (which happens on the spawned
retry thread), regardless of whether the value is a duplicate or the
topology is absent.  (The ch3 broadcast server instead acknowledges only
after its fan-out; see the counterexample.) -/
theorem c3_gset_ack_is_sole_sync_emission (node : GSet.Node)
    (src dest : NodeId) (i : MsgId) (v : NodeMessage) :
    ∃ node' pending,
      GSet.handle_broadcast node ⟨src, dest, .broadcast i v⟩ =
        .ok (node', [⟨node.node_id, src, .broadcastOk i⟩], pending) := by
  by_cases h : v ∈ node.messages
  · exact ⟨node, none, by simp [GSet.handle_broadcast, GSet.messages_contain, h]⟩
  · exact ⟨GSet.add_message node v, GSet.broadcast_gossip node src v,
      by simp [GSet.handle_broadcast, GSet.messages_contain, h]⟩

/-- C4: the MessageSet never shrinks: every operation the worker routes
(handle_echo, handle_topology, handle_broadcast, handle_read, handle_add,
and the logged-and-dropped arm) leaves the MessageSet a superset of what
it was, and the RPC continuation registered by the retry thread never
touches it at all. -/
theorem c4_message_set_never_shrinks (node : GSet.Node)
    (message : GSet.Message) (d : NodeId) (unacked : Finset NodeId)
    (response : GSet.Message) :
    node.messages ⊆ (GSet.routeMessage node message).1.messages ∧
    (GSet.broadcast_ack_callback d node unacked response).1.messages =
      node.messages := by
  constructor
  · rcases message with ⟨src, dest, body⟩
    cases body with
    | broadcast i v =>
        by_cases h : v ∈ node.messages <;>
          simp [GSet.routeMessage, GSet.handle_broadcast, GSet.messages_contain,
            h, GSet.add_message, Except.toOption, Option.getD,
            Finset.subset_insert]
    | _ =>
        simp [GSet.routeMessage, GSet.handle_echo, GSet.handle_topology,
          GSet.handle_read, GSet.handle_add, GSet.add_message,
          Except.toOption, Option.getD]
  · rcases response with ⟨s2, d2, rbody⟩
    cases rbody <;> simp [GSet.broadcast_ack_callback]

/-- C8: for a Broadcast carrying a value not yet in the MessageSet, the
g-set handler inserts the value, acknowledges, and creates a retry record
whose unacked set is exactly the topology neighbor list under the node's
own id with the request's sender removed (`spec_fanout_targets`); when no
Topology has been received, or the node's id is absent from it, that
target list is empty and no retry record is created.  The ch3 server's
synchronous fan-out likewise sends to exactly that target list. -/
theorem c8_fanout_targets_are_neighbors_minus_sender (node : GSet.Node)
    (node3 : BroadcastServer.Node) (src dest : NodeId) (i : MsgId)
    (v : NodeMessage) (hnew : v ∉ node.messages) (hnew3 : v ∉ node3.messages) :
    GSet.handle_broadcast node ⟨src, dest, .broadcast i v⟩ =
      .ok (GSet.add_message node v, [⟨node.node_id, src, .broadcastOk i⟩],
           GSet.broadcast_gossip node src v) ∧
    GSet.broadcast_gossip node src v =
      (if spec_fanout_targets node.topology node.node_id src = [] then none
       else some ⟨v, (spec_fanout_targets node.topology node.node_id src).toFinset⟩) ∧
    (∃ node3' gossip,
      BroadcastServer.handle_broadcast node3 ⟨src, dest, .broadcast i v⟩ =
        .ok (node3', gossip ++ [⟨node3.node_id, src, .broadcastOk i⟩]) ∧
      gossip.map (fun mm => mm.dest) =
        spec_fanout_targets node3.topology node3.node_id src) := by
  refine ⟨?_, ?_, ?_⟩
  · simp [GSet.handle_broadcast, GSet.messages_contain, hnew]
  · rcases htopo : node.topology with _ | topo
    · simp [GSet.broadcast_gossip, spec_fanout_targets, htopo]
    · simp only [GSet.broadcast_gossip, spec_fanout_targets, htopo]
      rcases hN : ((topo.lookup node.node_id).getD []).filter (fun n => n ≠ src)
        with _ | ⟨n0, rest⟩
      · simp [hN]
      · simp [hN]
  · rcases htopo : node3.topology with _ | topo3
    · exact ⟨BroadcastServer.add_message node3 v, [],
        by simp [BroadcastServer.handle_broadcast,
          BroadcastServer.messages_contain, hnew3, htopo],
        by simp [spec_fanout_targets, htopo]⟩
    · refine ⟨{ BroadcastServer.add_message node3 v with
          next_message_id :=
            (BroadcastServer.fan_out node3.node_id src v node3.next_message_id
              ((topo3.lookup node3.node_id).getD [])).1 },
        (BroadcastServer.fan_out node3.node_id src v node3.next_message_id
          ((topo3.lookup node3.node_id).getD [])).2, ?_, ?_⟩
      · simp [BroadcastServer.handle_broadcast,
          BroadcastServer.messages_contain, hnew3, htopo]
      · rw [(fan_out_dest_spec node3.node_id src v node3.next_message_id
          ((topo3.lookup node3.node_id).getD [])).1]
        simp [spec_fanout_targets, htopo]

/-- Witness for C8 at node n1 with topology n1 → [n2, n3] receiving the
new value 5 from n3: the retry record targets exactly n2. -/
theorem c8_fanout_targets_are_neighbors_minus_sender_witness :
    (5 : Int) ∉ (⟨"n1", some [("n1", ["n2", "n3"])], ∅, 0⟩ : GSet.Node).messages ∧
    (5 : Int) ∉
      (⟨"n1", some [("n1", ["n2", "n3"])], ∅, 0⟩ : BroadcastServer.Node).messages ∧
    (GSet.handle_broadcast ⟨"n1", some [("n1", ["n2", "n3"])], ∅, 0⟩
          ⟨"n3", "n1", .broadcast 2 5⟩ =
        .ok (GSet.add_message ⟨"n1", some [("n1", ["n2", "n3"])], ∅, 0⟩ 5,
             [⟨"n1", "n3", .broadcastOk 2⟩],
             GSet.broadcast_gossip ⟨"n1", some [("n1", ["n2", "n3"])], ∅, 0⟩ "n3" 5) ∧
      GSet.broadcast_gossip ⟨"n1", some [("n1", ["n2", "n3"])], ∅, 0⟩ "n3" 5 =
        (if spec_fanout_targets
              (⟨"n1", some [("n1", ["n2", "n3"])], ∅, 0⟩ : GSet.Node).topology
              "n1" "n3" = [] then none
         else some ⟨5, (spec_fanout_targets
              (⟨"n1", some [("n1", ["n2", "n3"])], ∅, 0⟩ : GSet.Node).topology
              "n1" "n3").toFinset⟩) ∧
      (∃ node3' gossip,
        BroadcastServer.handle_broadcast ⟨"n1", some [("n1", ["n2", "n3"])], ∅, 0⟩
            ⟨"n3", "n1", .broadcast 2 5⟩ =
          .ok (node3', gossip ++ [⟨"n1", "n3", .broadcastOk 2⟩]) ∧
        gossip.map (fun mm => mm.dest) =
          spec_fanout_targets
            (⟨"n1", some [("n1", ["n2", "n3"])], ∅, 0⟩ : BroadcastServer.Node).topology
            "n1" "n3")) :=
  ⟨by decide, by decide,
    c8_fanout_targets_are_neighbors_minus_sender
      ⟨"n1", some [("n1", ["n2", "n3"])], ∅, 0⟩
      ⟨"n1", some [("n1", ["n2", "n3"])], ∅, 0⟩
      "n3" "n1" 2 5 (by decide) (by decide)⟩

/-- C2: a registered continuation is invoked at most once and only while
processing a reply whose `in_reply_to` equals its MessageId: a worker
invokes a continuation only by removing it from the callback table under
the incoming reply's `in_reply_to`, the table afterwards no longer binds
that id, and a second reply carrying the same `in_reply_to` finds no
continuation and is dropped. -/
theorem c2_continuation_at_most_once {κ : Type} (cb : List (MsgId × κ))
    (msg msg2 : GSet.Message) (m : MsgId) (c : κ) :
    ((GSet.workerStep cb msg).2 = .invokedCallback c →
      ∃ mid, msg.body.is_reply = some mid ∧
        GSet.tableLookup cb mid = some c ∧
        GSet.tableLookup (GSet.workerStep cb msg).1 mid = none) ∧
    (msg.body.is_reply = some m → msg2.body.is_reply = some m →
      GSet.tableLookup cb m = some c →
      GSet.workerStep cb msg =
        (cb.filter (fun p => p.1 ≠ m), .invokedCallback c) ∧
      GSet.workerStep (cb.filter (fun p => p.1 ≠ m)) msg2 =
        (cb.filter (fun p => p.1 ≠ m), .droppedNoHandler)) := by
  constructor
  · intro hinv
    cases hr : msg.body.is_reply with
    | none =>
        rw [GSet.workerStep, hr] at hinv
        exact absurd hinv (routeAction_ne_invoked msg c)
    | some reply_to =>
        rw [GSet.workerStep, hr] at hinv ⊢
        simp only [GSet.tableRemove] at hinv ⊢
        cases hl : List.lookup reply_to cb with
        | none =>
            rw [hl] at hinv
            exact absurd hinv (routeAction_ne_invoked msg c)
        | some c0 =>
            rw [hl] at hinv
            have hc : c0 = c := by simpa using hinv
            exact ⟨reply_to, rfl, hc ▸ hl, lookup_filter_self cb reply_to⟩
  · intro hr1 hr2 hlk
    constructor
    · rw [GSet.workerStep, hr1]
      simp only [GSet.tableRemove]
      rw [show List.lookup m cb = some c from hlk]
    · rw [GSet.workerStep, hr2]
      simp only [GSet.tableRemove]
      rw [lookup_filter_self cb m]
      rw [routeAction_of_reply msg2 m hr2]

/-- Witness for C2: the only continuation in the table fires on the first
matching BroadcastOk and a duplicate of that reply is dropped. -/
theorem c2_continuation_at_most_once_witness :
    (∃ mid, (⟨"n2", "n1", .broadcastOk 5⟩ : GSet.Message).body.is_reply = some mid ∧
      GSet.tableLookup [(5, (77 : Nat))] mid = some 77 ∧
      GSet.tableLookup
        (GSet.workerStep [(5, (77 : Nat))] ⟨"n2", "n1", .broadcastOk 5⟩).1 mid =
        none) ∧
    GSet.workerStep [(5, 77)] ⟨"n2", "n1", .broadcastOk 5⟩ =
      (([(5, 77)] : List (MsgId × Nat)).filter (fun p => p.1 ≠ 5),
       .invokedCallback 77) ∧
    GSet.workerStep (([(5, 77)] : List (MsgId × Nat)).filter (fun p => p.1 ≠ 5))
        ⟨"n2", "n1", .broadcastOk 5⟩ =
      (([(5, 77)] : List (MsgId × Nat)).filter (fun p => p.1 ≠ 5),
       .droppedNoHandler) :=
  ⟨(c2_continuation_at_most_once [(5, 77)] ⟨"n2", "n1", .broadcastOk 5⟩
      ⟨"n2", "n1", .broadcastOk 5⟩ 5 77).1 (by decide),
    (c2_continuation_at_most_once [(5, 77)] ⟨"n2", "n1", .broadcastOk 5⟩
      ⟨"n2", "n1", .broadcastOk 5⟩ 5 77).2 rfl rfl (by decide)⟩

/-- C10: `rpc` registers the continuation in the callback table under the
body's MessageId before sending (the register effect precedes the send
effect in its effect list); a continuation already registered under that
id is silently replaced — afterwards the table binds the id to the new
continuation and every other id to what it bound before, and a worker
processing a reply correlated to that id invokes the new continuation,
so the replaced one is never invoked. -/
theorem c10_rpc_registers_then_sends {κ : Type} (node_id dest : NodeId)
    (cb : List (MsgId × κ)) (body : GSet.MessageBody) (handler : κ)
    (rpc_id : MsgId) (hid : body.msg_id = some rpc_id) :
    GSet.rpc node_id cb dest body handler =
      .ok (GSet.tableInsert cb rpc_id handler,
           [.register rpc_id handler, .send ⟨node_id, dest, body⟩]) ∧
    (∀ k, GSet.tableLookup (GSet.tableInsert cb rpc_id handler) k =
      if k = rpc_id then some handler else GSet.tableLookup cb k) ∧
    (∀ msg : GSet.Message, msg.body.is_reply = some rpc_id →
      (GSet.workerStep (GSet.tableInsert cb rpc_id handler) msg).2 =
        .invokedCallback handler) := by
  refine ⟨?_, fun k => tableLookup_tableInsert cb rpc_id k handler, ?_⟩
  · simp [GSet.rpc, hid]
  · intro msg hr
    rw [GSet.workerStep, hr]
    simp only [GSet.tableRemove]
    have hsome : List.lookup rpc_id (GSet.tableInsert cb rpc_id handler) =
        some handler := by
      have hh := tableLookup_tableInsert cb rpc_id rpc_id handler
      rw [if_pos rfl] at hh
      exact hh
    rw [hsome]

/-- Witness for C10: registering 20 under id 3 replaces the continuation
10 already registered there, the table now answers 20 for id 3, and the
reply correlated to 3 invokes 20. -/
theorem c10_rpc_registers_then_sends_witness :
    GSet.rpc "n1" [(3, 10)] "n2" (.broadcast 3 7) 20 =
      .ok (GSet.tableInsert [(3, 10)] 3 20,
           [.register 3 20, .send ⟨"n1", "n2", .broadcast 3 7⟩]) ∧
    GSet.tableLookup (GSet.tableInsert [(3, 10)] 3 20) 3 = some 20 ∧
    (GSet.workerStep (GSet.tableInsert [(3, 10)] 3 20)
        ⟨"n2", "n1", .broadcastOk 3⟩).2 = .invokedCallback 20 := by
  have H := c10_rpc_registers_then_sends "n1" "n2" [(3, 10)]
    (.broadcast 3 7) 20 3 rfl
  exact ⟨H.1, (H.2.1 3).trans (by decide),
    H.2.2 ⟨"n2", "n1", .broadcastOk 3⟩ rfl⟩

/-- C3 counterexample: the ch3 broadcast server's `handle_broadcast`, on
node n1 with topology n1 → n2 receiving a new value 5 from c0, emits the
gossip Broadcast to n2 first and the BroadcastOk to c0 only afterwards —
the reply is not emitted before every other effect. -/
theorem c3_ch3_ack_emitted_after_gossip :
    BroadcastServer.handle_broadcast ⟨"n1", some [("n1", ["n2"])], ∅, 0⟩
        ⟨"c0", "n1", .broadcast 1 5⟩ =
      .ok (⟨"n1", some [("n1", ["n2"])], {5}, 1⟩,
           [⟨"n1", "n2", .broadcast 0 5⟩, ⟨"n1", "c0", .broadcastOk 1⟩]) ∧
    ([⟨"n1", "n2", .broadcast 0 5⟩, ⟨"n1", "c0", .broadcastOk 1⟩] :
        List BroadcastServer.Message).head? ≠
      some ⟨"n1", "c0", .broadcastOk 1⟩ := by
  constructor
  · decide
  · decide

/-- C5: if the first message a node receives is not Init, the process
terminates with a fatal error (in the g-set server's `main` and in the
ch2 echo server's `initialize_node` alike); if it is Init, the node
replies init_ok with `in_reply_to` equal to the Init's `msg_id` and only
afterwards processes the remaining input. -/
theorem c5_init_handshake_gate (first : GSet.Message)
    (rest : List (Option GSet.Message)) (first2 : EchoServer.Message)
    (i : MsgId) (nid : NodeId) (nids : List String) :
    (first.body.isInit = false →
      GSet.main_run (some first :: rest) =
        .error "First message received must be init") ∧
    (first.body = .init i nid nids →
      GSet.main_run (some first :: rest) =
        .ok ((GSet.processAll (GSet.Node.new nid) (GSet.reader_loop rest).1).1,
             ⟨nid, first.src, .initOk i⟩ ::
               (GSet.processAll (GSet.Node.new nid) (GSet.reader_loop rest).1).2,
             (GSet.reader_loop rest).2)) ∧
    (first2.body.isInit = false →
      EchoServer.initialize_node first2 =
        .error "First message received was not init") ∧
    (first2.body = .init i nid nids →
      EchoServer.initialize_node first2 =
        .ok (⟨nid, 1⟩, ⟨nid, first2.src, .initOk 1 i⟩)) := by
  refine ⟨?_, ?_, ?_, ?_⟩
  · intro hni
    rcases first with ⟨s, d, b⟩
    cases b <;>
      simp_all [GSet.main_run, GSet.initPhase, GSet.MessageBody.isInit]
  · intro hb
    simp [GSet.main_run, GSet.initPhase, hb, GSet.Node.new]
  · intro hni
    rcases first2 with ⟨s, d, b⟩
    cases b <;>
      simp_all [EchoServer.initialize_node, EchoServer.parse_init_node,
        EchoServer.MessageBody.isInit]
  · intro hb
    have h1 : (0 + 1) % U64MOD = 1 := by norm_num [U64MOD]
    simp [EchoServer.initialize_node, EchoServer.parse_init_node, hb,
      EchoServer.acknowledge_init_node, EchoServer.get_next_msg_id, h1]

/-- Witness for C5: a first Echo is fatal in both servers; a first Init
yields an init_ok correlated to the Init's msg_id. -/
theorem c5_init_handshake_gate_witness :
    GSet.main_run [some ⟨"c0", "n1", .echo 1 "hi"⟩] =
      .error "First message received must be init" ∧
    GSet.main_run [some ⟨"c0", "n0", .init 1 "n0" ["n0"]⟩] =
      .ok ((GSet.processAll (GSet.Node.new "n0") (GSet.reader_loop []).1).1,
           ⟨"n0", "c0", .initOk 1⟩ ::
             (GSet.processAll (GSet.Node.new "n0") (GSet.reader_loop []).1).2,
           (GSet.reader_loop []).2) ∧
    EchoServer.initialize_node ⟨"c0", "n0", .echo 1 "hi"⟩ =
      .error "First message received was not init" ∧
    EchoServer.initialize_node ⟨"c0", "n0", .init 1 "n0" ["n0"]⟩ =
      .ok (⟨"n0", 1⟩, ⟨"n0", "c0", .initOk 1 1⟩) := by
  have HA := c5_init_handshake_gate ⟨"c0", "n1", .echo 1 "hi"⟩ []
    ⟨"c0", "n0", .echo 1 "hi"⟩ 1 "n0" []
  have HB := c5_init_handshake_gate ⟨"c0", "n0", .init 1 "n0" ["n0"]⟩ []
    ⟨"c0", "n0", .init 1 "n0" ["n0"]⟩ 1 "n0" ["n0"]
  exact ⟨HA.1 rfl, HB.2.1 rfl, HA.2.2.1 rfl, HB.2.2.2 rfl⟩

/-- C6 counterexample: a first line that fails to decode does not get
dropped-and-continued — `main` propagates the decode error and the
process terminates, never reaching the valid Init on the next line
(which on its own would have succeeded). -/
theorem c6_first_line_decode_error_is_fatal :
    GSet.main_run [none, some ⟨"c0", "n1", .init 1 "n1" ["n1"]⟩] =
      .error "Error decoding first message" ∧
    GSet.main_run [some ⟨"c0", "n1", .init 1 "n1" ["n1"]⟩] =
      .ok (GSet.Node.new "n1", [⟨"n1", "c0", .initOk 1⟩], []) := by
  constructor
  · decide
  · decide

/-- C6 (amended): for every input line after the first that fails to
decode, the reader loop logs the error and drops that line, and all
other lines — before and after it — are still decoded and enqueued for
processing. -/
theorem c6_reader_drops_bad_line_and_continues
    (pre post : List (Option GSet.Message)) :
    GSet.reader_loop (pre ++ none :: post) =
      ((GSet.reader_loop pre).1 ++ (GSet.reader_loop post).1,
       (GSet.reader_loop pre).2 ++
         "Error reading message" :: (GSet.reader_loop post).2) := by
  induction pre with
  | nil => simp [GSet.reader_loop]
  | cons x rest ih =>
      cases x <;> simp [GSet.reader_loop, ih]

/-- The g-set message-id counter after `k` calls holds `k` modulo 2^64. -/
theorem msg_id_counter_eq (k : Nat) : GSet.msg_id_counter k = k % U64MOD := by
  induction k with
  | zero => simp [GSet.msg_id_counter]
  | succ k ih =>
      rw [GSet.msg_id_counter, ih, GSet.get_next_msg_id]
      show (k % U64MOD + 1) % U64MOD = (k + 1) % U64MOD
      conv_rhs => rw [Nat.add_mod]
      rw [show (1 : Nat) % U64MOD = 1 from Nat.mod_eq_of_lt (by norm_num [U64MOD])]

/-- The id returned by the k-th call is `k` modulo 2^64. -/
theorem nth_msg_id_eq (k : Nat) : GSet.nth_msg_id k = k % U64MOD := by
  rw [GSet.nth_msg_id, msg_id_counter_eq]
  show k % U64MOD % U64MOD = k % U64MOD
  exact Nat.mod_mod_of_dvd _ dvd_rfl

/-- C7 counterexample: the `u64` counter wraps, so after 2^64 calls the
id 0 is returned again — call number 2^64 yields the same id as call
number 0, which is neither fresh nor strictly greater. -/
theorem c7_counter_wraps_at_u64 :
    GSet.nth_msg_id 0 = 0 ∧ GSet.nth_msg_id U64MOD = 0 ∧
    ¬ GSet.nth_msg_id 0 < GSet.nth_msg_id U64MOD := by
  refine ⟨?_, ?_, ?_⟩
  · rw [nth_msg_id_eq, Nat.zero_mod]
  · rw [nth_msg_id_eq, Nat.mod_self]
  · rw [nth_msg_id_eq, nth_msg_id_eq, Nat.mod_self]
    simp

/-- C7 (amended): message-id generation is strictly increasing — and
hence never reuses an id — as long as fewer than 2^64 ids have been
generated by the node (the `u64` counter wraps only after 2^64 calls). -/
theorem c7_msg_ids_strictly_increasing (i j : Nat) (hij : i < j)
    (hj : j < U64MOD) :
    GSet.nth_msg_id i < GSet.nth_msg_id j := by
  rw [nth_msg_id_eq, nth_msg_id_eq, Nat.mod_eq_of_lt (lt_trans hij hj),
    Nat.mod_eq_of_lt hj]
  exact hij

/-- Witness for C7 (amended) at calls 1 and 3. -/
theorem c7_msg_ids_strictly_increasing_witness :
    1 < 3 ∧ 3 < U64MOD ∧ GSet.nth_msg_id 1 < GSet.nth_msg_id 3 :=
  ⟨by norm_num, by norm_num [U64MOD],
    c7_msg_ids_strictly_increasing 1 3 (by norm_num) (by norm_num [U64MOD])⟩
